import Mathlib

/-!
# Verification of the pm-risk configuration, training and inference core

Shallow embedding of `src/config.py`, `src/train_configured.py` and
`src/inference_configured.py` of the projectSchedule_Analyzer repository.

Python values coming out of `json.loads` are modelled by the inductive type
`Json` (numbers as rationals); Python dictionaries with string keys by
association lists; `os.environ` by a partial map from variable names to
string values; Python exceptions by the `PyErr` type, with fallible code
returning `Except PyErr _`.

The spec's error taxonomy corresponds to the concrete Python exception
classes as follows: `ConfigError` is the `ValueError` raised by
`load_config`, `EnvironmentError` is Python's `EnvironmentError`,
`DataNotFoundError` is the `FileNotFoundError` raised by `load_csv`,
`SchemaError` is the `KeyError` on the missing label column, and
`UnsupportedRequestError` is the `ValueError` raised by `input_fn`.
Likewise the spec's mode literal `managed-platform` is the code's literal
string `sagemaker`.
-/

namespace PMRisk

/-- A JSON value as produced by Python's `json.loads`.
JSON numbers are modelled as rationals. -/
inductive Json where
  | null
  | bool (b : Bool)
  | num (q : ℚ)
  | str (s : String)
  | arr (elts : List Json)
  | obj (fields : List (String × Json))
deriving Repr

/-- A Python dict with string keys, e.g. a parsed configuration document. -/
abbrev Dict := List (String × Json)

/-- The Python exception classes raised by the embedded modules. -/
inductive PyErr where
  | valueError (msg : String)
  | typeError (msg : String)
  | keyError (key : String)
  | attributeError (msg : String)
  | environmentError (msg : String)
  | fileNotFoundError (msg : String)
deriving Repr, DecidableEq

/-- The process environment `os.environ`: `none` means the variable is unset. -/
abbrev Env := String → Option String

/-- Lookup in a string-keyed association list (a Python dict): the value at
the first matching key, or `none`. -/
def lookupStr {α : Type} : List (String × α) → String → Option α
  | [], _ => none
  | (k2, v) :: rest, k => if k2 = k then some v else lookupStr rest k

/-- `d.get(k)` on a Python dict: `some v` when the key is present, else `none`. -/
def objGet (kvs : List (String × Json)) (k : String) : Option Json :=
  lookupStr kvs k

/-- `d[k] = v` on a Python dict: overwrite the value when the key is
present, otherwise add the new binding. -/
def objSet : List (String × Json) → String → Json → List (String × Json)
  | [], k, v => [(k, v)]
  | (k2, w) :: rest, k, v =>
      if k2 = k then (k, v) :: rest else (k2, w) :: objSet rest k v

/-- `j[k]` on an arbitrary Python value: `KeyError` when the key is missing
from a dict, `TypeError` when `j` is not a dict. -/
def subscript (j : Json) (k : String) : Except PyErr Json :=
  match j with
  | .obj kvs =>
      match objGet kvs k with
      | some v => .ok v
      | none => .error (.keyError k)
  | _ => .error (.typeError "value is not subscriptable by string")

/-- Python truthiness of `os.environ.get(name)`: `None` and the empty
string are falsy. -/
def falsyEnvVal (o : Option String) : Bool :=
  match o with
  | none => true
  | some s => s = ""

/-- Python `str.lower()`, character by character (the configuration mode
literals are plain ASCII). -/
def pyLower (s : String) : String :=
  String.mk (s.data.map Char.toLower)

/-! ## config.py -/

/-- The mode-validity test of `load_config`:
`cfg.get("mode") not in ("local", "sagemaker")` raises; a missing or
non-string mode is never equal to either literal. The spec calls the
second literal `managed-platform`. -/
def modeValid (cfg : Dict) : Bool :=
  match objGet cfg "mode" with
  | some (Json.str s) => s = "local" || s = "sagemaker"
  | _ => false

/-- `load_config` from `src/config.py`, after the configuration file has been
located, opened and parsed: `docResult` is the outcome of
`json.load(open(path))` (an exception there propagates).  Applies the `MODE`
environment override — `if env_mode:` is Python truthiness, so an unset or
empty `MODE` leaves the document unchanged — then validates the mode,
raising `ValueError` (the spec's `ConfigError`) unless it is one of the two
recognized literals. -/
def load_config (env : Env) (docResult : Except PyErr Dict) : Except PyErr Dict := do
  let cfg ← docResult
  let cfg :=
    match env "MODE" with
    | some m => if m = "" then cfg else objSet cfg "mode" (Json.str (pyLower m))
    | none => cfg
  if modeValid cfg then
    .ok cfg
  else
    .error (.valueError "config mode must be local or sagemaker.")

/-- `resolve_paths` from `src/config.py`.  Branches on `cfg["mode"]`
(`KeyError` when absent): the `local` branch returns the two entries of the
`local` section verbatim; every other mode takes the SageMaker branch, which
looks up the environment variables named by the `sagemaker` section and
raises `EnvironmentError` when either value is unset or empty. -/
def resolve_paths (env : Env) (cfg : Dict) : Except PyErr (Json × Json) := do
  let mode ←
    match objGet cfg "mode" with
    | some m => Except.ok m
    | none => Except.error (PyErr.keyError "mode")
  let isLocal : Bool := match mode with | .str s => s = "local" | _ => false
  if isLocal then do
    let loc ←
      match objGet cfg "local" with
      | some l => Except.ok l
      | none => Except.error (PyErr.keyError "local")
    let data_path ← subscript loc "data_path"
    let out_dir ← subscript loc "out_dir"
    return (data_path, out_dir)
  else do
    let sm ←
      match objGet cfg "sagemaker" with
      | some s => Except.ok s
      | none => Except.error (PyErr.keyError "sagemaker")
    let tcj ← subscript sm "train_channel"
    let mdj ← subscript sm "model_dir"
    let tc ←
      match tcj with
      | .str s => Except.ok s
      | _ => Except.error (PyErr.typeError "environ key must be str")
    let md ←
      match mdj with
      | .str s => Except.ok s
      | _ => Except.error (PyErr.typeError "environ key must be str")
    let data_path := env tc
    let out_dir := env md
    if falsyEnvVal data_path || falsyEnvVal out_dir then
      Except.error (PyErr.environmentError "Missing SageMaker env vars.")
    else
      return (Json.str (data_path.getD ""), Json.str (out_dir.getD ""))

/-- The value of a list of decimal digit characters. -/
def digitsToNat (cs : List Char) : ℕ :=
  cs.foldl (fun a c => a * 10 + (c.toNat - 48)) 0

/-- Strip leading and trailing whitespace, as Python `float` does before
parsing a string. -/
def trimChars (cs : List Char) : List Char :=
  ((cs.dropWhile Char.isWhitespace).reverse.dropWhile Char.isWhitespace).reverse

/-- Split a character list at its first dot: the part before, and, when a
dot occurs, the part after it. -/
def splitAtDot : List Char → List Char × Option (List Char)
  | [] => ([], none)
  | c :: rest =>
      if c = '.' then ([], some rest)
      else
        let (ip, fp) := splitAtDot rest
        (c :: ip, fp)

/-- Python `float(s)` on a string, modelled for plain decimal literals
(optional sign, digits, optional fractional part); exponent, infinity and
NaN forms are outside the model and treated as conversion failures, as is
every other malformed string (`ValueError`). -/
def pyStrToFloat (s : String) : Except PyErr ℚ :=
  let cs := trimChars s.data
  let (sign, body) :=
    match cs with
    | '-' :: rest => ((-1 : ℚ), rest)
    | '+' :: rest => ((1 : ℚ), rest)
    | _ => ((1 : ℚ), cs)
  match splitAtDot body with
  | (ip, none) =>
      if ip ≠ [] ∧ ip.all Char.isDigit then
        .ok (sign * (digitsToNat ip : ℚ))
      else .error (.valueError "could not convert string to float")
  | (ip, some fp) =>
      if !fp.contains '.' ∧ (ip ≠ [] ∨ fp ≠ []) ∧
          ip.all Char.isDigit ∧ fp.all Char.isDigit then
        .ok (sign * ((digitsToNat ip : ℚ) +
              (digitsToNat fp : ℚ) / (10 ^ fp.length : ℚ)))
      else .error (.valueError "could not convert string to float")

/-- Python `float(x)` on a JSON-decoded value: numbers pass through, booleans
become 0/1, numeric strings are parsed, everything else raises
(`TypeError` for `None`, lists and dicts; `ValueError` for bad strings). -/
def pyFloat (j : Json) : Except PyErr ℚ :=
  match j with
  | .num q => .ok q
  | .bool b => .ok (if b then 1 else 0)
  | .str s => pyStrToFloat s
  | _ => .error (.typeError "float() argument must be a string or a real number")

/-- `threshold` from `src/config.py`:
`float(cfg.get("inference", {}).get("threshold", 0.5))`.  The outer `get`
defaults to an empty dict; a non-dict `inference` value makes the inner
`.get` raise `AttributeError`; the final `float(...)` raises when the stored
threshold is present but not convertible. -/
def threshold (cfg : Dict) : Except PyErr ℚ :=
  match (objGet cfg "inference").getD (Json.obj []) with
  | .obj kvs => pyFloat ((objGet kvs "threshold").getD (Json.num (1 / 2)))
  | _ => .error (.attributeError "no attribute get")

/-! ## inference_configured.py -/

/-- A parsed serving request, the result of `input_fn`: either the single-row
named feature table `pd.DataFrame([feats])` built from a JSON mapping, or the
single-row ordered numeric array `np.array([feats], dtype=float)` built from
a JSON list. -/
inductive ParsedInput where
  | frame (row : List (String × Json))
  | array (row : List ℚ)

/-- A deserialized model artifact, as loaded by `joblib.load`.
`predictProba x` is the positive-class probability
`model.predict_proba(x)[0, 1]` of the single input row, the artifact's own
opaque computation.  `decisionThreshold` models the `_decision_threshold`
attribute: `none` when it was never attached
(`getattr(model, '_decision_threshold', 0.5)` then defaults). -/
structure Model where
  predictProba : ParsedInput → ℚ
  decisionThreshold : Option ℚ

/-- The structured result dict returned by `predict_fn`:
`{'prediction': 0|1, 'proba': p, 'threshold': t}`. -/
structure Prediction where
  prediction : ℕ
  proba : ℚ
  threshold : ℚ
deriving Repr, DecidableEq

/-- The combined configuration-derived threshold computed inside `model_fn`'s
`try` block: `cfg = load_config(); threshold(cfg)`.  `docResult` is the
outcome of reading and parsing the configuration file. -/
def configThreshold (env : Env) (docResult : Except PyErr Dict) : Except PyErr ℚ := do
  let cfg ← load_config env docResult
  threshold cfg

/-- `model_fn` from `src/inference_configured.py`, after `joblib.load` has
produced the deserialized artifact `m`: attaches `_decision_threshold` from
the configuration, substituting 0.5 whenever any step of configuration
loading raises (`except Exception`). -/
def model_fn (env : Env) (docResult : Except PyErr Dict) (m : Model) : Model :=
  let thr :=
    match configThreshold env docResult with
    | .ok t => t
    | .error _ => (1 : ℚ) / 2
  { m with decisionThreshold := some thr }

/-- Element conversion performed by `np.array(feats, dtype=float)` on one
JSON-decoded list element: numbers pass through, booleans become 0/1,
numeric strings are parsed, a non-numeric string or a nested structure is a
conversion failure (`ValueError`).  `None` elements (NumPy would produce
NaN) are outside the model and also mapped to a failure. -/
def npElemToFloat (j : Json) : Except PyErr ℚ :=
  match j with
  | .num q => .ok q
  | .bool b => .ok (if b then 1 else 0)
  | .str s => pyStrToFloat s
  | _ => .error (.valueError "could not convert element to float")

/-- The element-by-element conversion `np.array(feats, dtype=float)`
performs on a JSON-decoded list: the first failing element's exception
propagates. -/
def npConvertList : List Json → Except PyErr (List ℚ)
  | [] => .ok []
  | j :: rest => do
      let q ← npElemToFloat j
      let qs ← npConvertList rest
      return (q :: qs)

/-- `input_fn` from `src/inference_configured.py`.  `body` is the
JSON-decoded request body (a body that `json.loads` rejects raises a
`JSONDecodeError`, a `ValueError` subclass, before this logic runs).  Only
the exact content type `application/json` is accepted; `payload.get` on a
non-dict payload raises `AttributeError`; a `features` mapping becomes a
single-row frame, a `features` list a single-row float array, and anything
else falls through to the final `raise ValueError`. -/
def input_fn (body : Json) (request_content_type : String) : Except PyErr ParsedInput :=
  if request_content_type = "application/json" then
    match body with
    | .obj kvs =>
        match (objGet kvs "features").getD Json.null with
        | .obj f => .ok (.frame f)
        | .arr xs =>
            match npConvertList xs with
            | .ok row => .ok (.array row)
            | .error e => .error e
        | _ => .error (.valueError "Unsupported content type or payload")
    | _ => .error (.attributeError "no attribute get")
  else .error (.valueError "Unsupported content type or payload")

/-- `predict_fn` from `src/inference_configured.py`: computes the
positive-class probability, reads the attached threshold (defaulting to 0.5
when absent), and labels the input positive exactly when the probability is
greater than or equal to the threshold.  A pure function of
(input, model). -/
def predict_fn (input_data : ParsedInput) (model : Model) : Prediction :=
  let proba := model.predictProba input_data
  let thr := model.decisionThreshold.getD ((1 : ℚ) / 2)
  { prediction := if proba ≥ thr then 1 else 0, proba := proba, threshold := thr }

/-! ## train_configured.py -/

/-- The slice of the filesystem visible to the training run.
`entries dir` lists the names (not paths) inside a directory;
`readCsv path` is the outcome of `pd.read_csv(path)`, returning the parsed
table as named columns. -/
structure FS where
  isDir : String → Bool
  entries : String → List String
  readCsv : String → Except PyErr (List (String × List Json))

/-- A loaded data table: named columns, as produced by `pd.read_csv`. -/
abbrev Frame := List (String × List Json)

/-- Whether one character list starts with another. -/
def listStartsWith : List Char → List Char → Bool
  | [], _ => true
  | _ :: _, [] => false
  | p :: ps, c :: cs => p = c && listStartsWith ps cs

/-- Whether a directory entry matches the pattern `*.csv` of
`glob.glob(os.path.join(dir, '*.csv'))`: the name ends in `.csv`, and
glob's `*` never matches a leading dot, so hidden files are excluded. -/
def matchesCsvGlob (name : String) : Bool :=
  listStartsWith ".csv".data.reverse name.data.reverse &&
  !(listStartsWith ".".data name.data)

/-- `os.path.join(dir, name)`. -/
def joinPath (dir name : String) : String := dir ++ "/" ++ name

/-- Lexicographic comparison of character lists by code point: the order
Python's `sorted` uses on strings. -/
def charListLe : List Char → List Char → Bool
  | [], _ => true
  | _ :: _, [] => false
  | a :: as, b :: bs => if a < b then true else if b < a then false else charListLe as bs

/-- Python's string order, as a relation usable by the sorting step. -/
def StrLe (a b : String) : Prop := charListLe a.data b.data = true

instance : DecidableRel StrLe := fun a b => Bool.decEq (charListLe a.data b.data) true

/-- The file-selection step at the top of `load_csv`: a directory is
searched with `sorted(glob.glob(os.path.join(path_or_dir, '*.csv')))` and
the first candidate is taken, raising `FileNotFoundError` (the spec's
`DataNotFoundError`) when there is none; a non-directory path is used
directly. -/
def select_data_file (fs : FS) (path_or_dir : String) : Except PyErr String :=
  if fs.isDir path_or_dir then
    let candidates :=
      List.insertionSort StrLe
        (((fs.entries path_or_dir).filter matchesCsvGlob).map
          (joinPath path_or_dir))
    match candidates with
    | [] => .error (.fileNotFoundError ("No CSV files found in " ++ path_or_dir))
    | c :: _ => .ok c
  else .ok path_or_dir

/-- `df['is_late']` column lookup: `KeyError` (the spec's `SchemaError`)
when the column is absent. -/
def frameColumn (df : Frame) (k : String) : Except PyErr (List Json) :=
  match lookupStr df k with
  | some col => .ok col
  | none => .error (.keyError k)

/-- `df.drop(columns=[k])`. -/
def frameDrop (df : Frame) (k : String) : Frame :=
  df.filter (fun p => !(p.1 = k))

/-- `load_csv` from `src/train_configured.py`: select the data file, read
it, split off the `is_late` label column as `y` and return the remaining
columns as `X`. -/
def load_csv (fs : FS) (path_or_dir : String) :
    Except PyErr (Frame × List Json) := do
  let path ← select_data_file fs path_or_dir
  let df ← fs.readCsv path
  let y ← frameColumn df "is_late"
  let X := frameDrop df "is_late"
  return (X, y)

/-- The two candidate classifiers of the training pipeline. -/
inductive Classifier where
  | logreg
  | xgboost
deriving Repr, DecidableEq

/-- One file written by the persistence step of `main`: the selected
artifact `model.joblib`, or the plain-text `metrics.txt` report carrying
both F1 scores and the name of the winner. -/
inductive FileWrite where
  | artifact (out_dir : String) (best : Classifier)
  | metrics (out_dir : String) (logreg_f1 xgboost_f1 : ℚ) (best : String)
deriving Repr, DecidableEq

/-- `os.path.isdir` / `os.makedirs` demand a string path; `resolve_paths`
may hand back an arbitrary JSON value from the `local` section. -/
def asPathStr (j : Json) : Except PyErr String :=
  match j with
  | .str s => .ok s
  | _ => .error (.typeError "path must be str")

/-- Steps 1-4 of `main` from `src/train_configured.py`, everything before
the persistence step.  `docResult` is the parsed configuration file;
`trainModels X y` stands for steps 2b-4 (stratified 80/20 split with the
fixed seed, preprocessor fit, fitting both classifiers and scoring them on
the held-out split), returning the pair `(f1_lr, f1_xgb)` or the exception
those library calls raise.  `os.path.isdir(data_path)` at the top of
`load_csv` demands a string data path; the output directory is only
demanded to be a string by `os.makedirs` in step 5, after training. -/
def train_steps (env : Env) (docResult : Except PyErr Dict) (fs : FS)
    (trainModels : Frame → List Json → Except PyErr (ℚ × ℚ)) :
    Except PyErr (String × ℚ × ℚ) := do
  let cfg ← load_config env docResult
  let (data_path, out_dirJ) ← resolve_paths env cfg
  let dp ← asPathStr data_path
  let (X, y) ← load_csv fs dp
  let (f1_lr, f1_xgb) ← trainModels X y
  let out_dir ← asPathStr out_dirJ
  return (out_dir, f1_lr, f1_xgb)

/-- Step 5 of `main`: the files written to the output directory — the
selected artifact `best = xgb if f1_xgb >= f1_lr else lr` saved as
`model.joblib`, and `metrics.txt` whose `best` line is computed by the same
`f1_xgb >= f1_lr` comparison. -/
def persistWrites (out_dir : String) (f1_lr f1_xgb : ℚ) : List FileWrite :=
  [FileWrite.artifact out_dir
    (if f1_xgb ≥ f1_lr then Classifier.xgboost else Classifier.logreg),
   FileWrite.metrics out_dir f1_lr f1_xgb
    (if f1_xgb ≥ f1_lr then "xgboost" else "logreg")]

/-- `main` from `src/train_configured.py`: the run's outcome paired with
the list of files written.  Every fallible step runs before anything is
written; a raised exception aborts the run with nothing written. -/
def train_main (env : Env) (docResult : Except PyErr Dict) (fs : FS)
    (trainModels : Frame → List Json → Except PyErr (ℚ × ℚ)) :
    Except PyErr Unit × List FileWrite :=
  match train_steps env docResult fs trainModels with
  | .error e => (.error e, [])
  | .ok (out_dir, f1_lr, f1_xgb) => (.ok (), persistWrites out_dir f1_lr f1_xgb)

/-! ## Concrete example inputs -/

/-- An empty process environment: every variable unset. -/
def noEnv : Env := fun _ => none

/-- An environment where only `MODE` is set, to the empty string. -/
def envEmptyMode : Env := fun k => if k = "MODE" then some "" else none

/-- A configuration document whose mode is the literal `local`. -/
def docLocalMode : Dict := [("mode", Json.str "local")]

/-- A configuration whose inference threshold is not float-convertible. -/
def cfgBadThreshold : Dict :=
  [("inference", Json.obj [("threshold", Json.str "not a number")])]

/-- A local-mode document carrying an inference threshold of 0.7. -/
def cfgDocOk : Dict :=
  [("mode", Json.str "local"),
   ("inference", Json.obj [("threshold", Json.num (7 / 10))])]

/-- A deserialized artifact with no attached threshold and a constant
probability output. -/
def dummyModel : Model := ⟨fun _ => 0, none⟩

/-- A constant-probability artifact with an attached threshold. -/
def modelAt (p t : ℚ) : Model := ⟨fun _ => p, some t⟩

/-- A sagemaker-mode document naming the two conventional platform
variables. -/
def smCfg : Dict :=
  [("mode", Json.str "sagemaker"),
   ("sagemaker", Json.obj
     [("train_channel", Json.str "SM_CHANNEL_TRAIN"),
      ("model_dir", Json.str "SM_MODEL_DIR")])]

/-- An environment where both platform variables hold non-empty paths. -/
def smEnvFull : Env := fun k =>
  if k = "SM_CHANNEL_TRAIN" then some "/opt/ml/input/data/train"
  else if k = "SM_MODEL_DIR" then some "/opt/ml/model" else none

/-- A complete local-mode configuration document. -/
def localCfgFull : Dict :=
  [("mode", Json.str "local"),
   ("local", Json.obj
     [("data_path", Json.str "data/projects.csv"),
      ("out_dir", Json.str "models")])]

/-- A filesystem with one mounted channel directory holding two data files
and a stray text file. -/
def demoFS : FS :=
  ⟨fun d => d == "/data/train",
   fun d => if d == "/data/train" then ["b.csv", "a.csv", "notes.txt"] else [],
   fun _ => .error (.fileNotFoundError "unread")⟩

/-- A filesystem where the local data path resolves to a small labelled
table. -/
def trainFS : FS :=
  ⟨fun _ => false,
   fun _ => [],
   fun pth =>
     if pth == "data/projects.csv" then
       .ok [("is_late", [Json.num 1, Json.num 0]),
            ("duration", [Json.num 3, Json.num 4])]
     else .error (.fileNotFoundError pth)⟩

/-- A training stage that succeeds with fixed held-out scores. -/
def okTrain : Frame → List Json → Except PyErr (ℚ × ℚ) :=
  fun _ _ => .ok (1 / 2, 3 / 4)

/-! ## Helper lemmas -/

theorem objGet_objSet_self (d : Dict) (k : String) (v : Json) :
    objGet (objSet d k v) k = some v := by
  induction d with
  | nil => simp [objGet, objSet, lookupStr]
  | cons a rest ih =>
    obtain ⟨k2, w⟩ := a
    by_cases h : k2 = k
    · simp [objGet, objSet, lookupStr, h]
    · simpa [objGet, objSet, lookupStr, h] using ih

theorem objGet_objSet_ne (d : Dict) (k k' : String) (v : Json) (h : k' ≠ k) :
    objGet (objSet d k v) k' = objGet d k' := by
  have hne : ¬ k = k' := fun hh => h hh.symm
  induction d with
  | nil => simp [objGet, objSet, lookupStr, hne]
  | cons a rest ih =>
    obtain ⟨k2, w⟩ := a
    by_cases h2 : k2 = k
    · subst h2
      simp [objGet, objSet, lookupStr, hne]
    · by_cases h3 : k2 = k'
      · simp [objGet, objSet, lookupStr, h2, h3, h]
      · simpa [objGet, objSet, lookupStr, h2, h3] using ih

theorem charListLe_refl (cs : List Char) : charListLe cs cs = true := by
  induction cs with
  | nil => rfl
  | cons a rest ih => simpa [charListLe, lt_irrefl] using ih

theorem charListLe_cons_inv (a b : Char) (as bs : List Char)
    (h : charListLe (a :: as) (b :: bs) = true) :
    a < b ∨ (a = b ∧ charListLe as bs = true) := by
  rcases lt_trichotomy a b with hlt | heq | hgt
  · exact Or.inl hlt
  · subst heq
    right
    refine ⟨rfl, ?_⟩
    simpa [charListLe, lt_irrefl] using h
  · exfalso
    simp [charListLe, hgt, asymm hgt] at h

theorem charListLe_total (as bs : List Char) :
    charListLe as bs = true ∨ charListLe bs as = true := by
  induction as generalizing bs with
  | nil => exact Or.inl rfl
  | cons a as ih =>
    cases bs with
    | nil => exact Or.inr rfl
    | cons b bs =>
      rcases lt_trichotomy a b with hlt | heq | hgt
      · exact Or.inl (by simp [charListLe, hlt])
      · subst heq
        rcases ih bs with h | h
        · exact Or.inl (by simpa [charListLe, lt_irrefl] using h)
        · exact Or.inr (by simpa [charListLe, lt_irrefl] using h)
      · exact Or.inr (by simp [charListLe, hgt])

theorem charListLe_trans (as bs cs : List Char)
    (h1 : charListLe as bs = true) (h2 : charListLe bs cs = true) :
    charListLe as cs = true := by
  induction as generalizing bs cs with
  | nil => rfl
  | cons a as ih =>
    cases bs with
    | nil => simp [charListLe] at h1
    | cons b bs =>
      cases cs with
      | nil => simp [charListLe] at h2
      | cons c cs =>
        rcases charListLe_cons_inv a b as bs h1 with hab | ⟨hab, h1'⟩ <;>
          rcases charListLe_cons_inv b c bs cs h2 with hbc | ⟨hbc, h2'⟩
        · exact (by simp [charListLe, lt_trans hab hbc])
        · subst hbc; exact (by simp [charListLe, hab])
        · subst hab; exact (by simp [charListLe, hbc])
        · subst hab; subst hbc
          simpa [charListLe, lt_irrefl] using ih bs cs h1' h2'

instance : IsTotal String StrLe :=
  ⟨fun a b => charListLe_total a.data b.data⟩

instance : IsTrans String StrLe :=
  ⟨fun a b c => charListLe_trans a.data b.data c.data⟩

theorem strLe_refl (a : String) : StrLe a a := charListLe_refl a.data

theorem exceptBindOk {α β : Type} (a : α) (f : α → Except PyErr β) :
    (Except.ok a >>= f) = f a := rfl

theorem exceptBindErr {α β : Type} (e : PyErr) (f : α → Except PyErr β) :
    ((Except.error e : Except PyErr α) >>= f) = .error e := rfl

theorem exceptMapOk {α β : Type} (f : α → β) (a : α) :
    (f <$> (Except.ok a : Except PyErr α)) = .ok (f a) := rfl

theorem exceptMapErr {α β : Type} (f : α → β) (e : PyErr) :
    (f <$> (Except.error e : Except PyErr α)) = .error e := rfl

theorem exceptPure {α : Type} (a : α) : (pure a : Except PyErr α) = .ok a := rfl

theorem modeValid_iff (cfg : Dict) :
    modeValid cfg = true ↔
      (objGet cfg "mode" = some (Json.str "local") ∨
       objGet cfg "mode" = some (Json.str "sagemaker")) := by
  unfold modeValid
  cases h : objGet cfg "mode" with
  | none => simp
  | some j => cases j <;> simp

/-! ## Claim theorems -/

/-- C1: for every feature input and model, `predict_fn` returns the
structured result of label, probability and threshold, where the
probability is the model's positive-class output, the reported threshold is
the model's attached threshold, and the label is positive exactly when the
probability is greater than or equal to that threshold (inclusive
boundary): a probability of exactly 0.7 against threshold 0.7 is labelled
positive, 0.6999 negative.  `predict_fn` is a Lean function of
(input, model), so it is pure by construction. -/
theorem predict_fn_inclusive_threshold (x : ParsedInput) (m : Model) :
    (predict_fn x m).proba = m.predictProba x ∧
    (predict_fn x m).threshold = m.decisionThreshold.getD ((1 : ℚ) / 2) ∧
    ((predict_fn x m).prediction = 1 ↔
      m.decisionThreshold.getD ((1 : ℚ) / 2) ≤ m.predictProba x) ∧
    ((predict_fn x m).prediction = 0 ↔
      m.predictProba x < m.decisionThreshold.getD ((1 : ℚ) / 2)) ∧
    (predict_fn x (modelAt (7 / 10) (7 / 10))).prediction = 1 ∧
    (predict_fn x (modelAt (6999 / 10000) (7 / 10))).prediction = 0 := by
  refine ⟨rfl, rfl, ?_, ?_, ?_, ?_⟩
  · by_cases hge : m.decisionThreshold.getD ((1 : ℚ) / 2) ≤ m.predictProba x <;>
      simp [predict_fn, ge_iff_le, hge]
  · by_cases hge : m.decisionThreshold.getD ((1 : ℚ) / 2) ≤ m.predictProba x
    · simp [predict_fn, ge_iff_le, hge, not_lt.mpr hge]
    · simp [predict_fn, ge_iff_le, hge, not_le.mp hge]
  · simp [predict_fn, modelAt]
  · simp [predict_fn, modelAt]
    norm_num

/-- C4 counterexample: `threshold` is not total — on a document whose
`inference.threshold` entry is a non-numeric string, `float(...)` raises
`ValueError` instead of returning the 0.5 default. -/
theorem threshold_malformed_raises :
    threshold cfgBadThreshold =
      .error (.valueError "could not convert string to float") := rfl

/-- C4 (amended): `threshold(cfg)` returns the configured decision
threshold when the inference section holds a numeric one, and the default
0.5 when the inference section or the threshold entry is absent; but when a
threshold entry is present and not float-convertible the call raises
instead of defaulting. -/
theorem threshold_defaults (cfg : Dict) :
    (objGet cfg "inference" = none → threshold cfg = .ok ((1 : ℚ) / 2)) ∧
    (∀ kvs, objGet cfg "inference" = some (Json.obj kvs) →
      objGet kvs "threshold" = none → threshold cfg = .ok ((1 : ℚ) / 2)) ∧
    (∀ kvs q, objGet cfg "inference" = some (Json.obj kvs) →
      objGet kvs "threshold" = some (Json.num q) → threshold cfg = .ok q) := by
  refine ⟨?_, ?_, ?_⟩
  · intro h
    unfold objGet at h
    simp [threshold, h, pyFloat, objGet, lookupStr]
  · intro kvs h1 h2
    simp [threshold, h1, h2, pyFloat]
  · intro kvs q h1 h2
    simp [threshold, h1, h2, pyFloat]

/-- Witness for C4 (amended) at concrete documents. -/
theorem threshold_defaults_witness :
    threshold [] = .ok ((1 : ℚ) / 2) ∧
    threshold [("inference", Json.obj [])] = .ok ((1 : ℚ) / 2) ∧
    threshold [("inference", Json.obj [("threshold", Json.num (7 / 10))])] =
      .ok (7 / 10) :=
  ⟨(threshold_defaults []).1 rfl,
   (threshold_defaults [("inference", Json.obj [])]).2.1 [] rfl rfl,
   (threshold_defaults
      [("inference", Json.obj [("threshold", Json.num (7 / 10))])]).2.2
     [("threshold", Json.num (7 / 10))] (7 / 10) rfl rfl⟩

/-- C5: `model_fn` returns the deserialized artifact unchanged apart from
attaching a decision threshold: the configuration-derived threshold when
configuration loading and threshold extraction succeed, and the fallback
0.5 when any part of configuration loading raises — `model_fn` itself
totally returns a model, so a configuration problem never prevents serving
from starting. -/
theorem model_fn_attaches_threshold (env : Env) (docResult : Except PyErr Dict)
    (m : Model) :
    (model_fn env docResult m).predictProba = m.predictProba ∧
    (∀ t, configThreshold env docResult = .ok t →
      (model_fn env docResult m).decisionThreshold = some t) ∧
    (∀ e, configThreshold env docResult = .error e →
      (model_fn env docResult m).decisionThreshold = some ((1 : ℚ) / 2)) := by
  refine ⟨rfl, ?_, ?_⟩
  · intro t h
    simp [model_fn, h]
  · intro e h
    simp [model_fn, h]

/-- Witness for C5: a readable 0.7-threshold configuration is attached;
an unreadable configuration file falls back to 0.5. -/
theorem model_fn_attaches_threshold_witness :
    (model_fn noEnv (.ok cfgDocOk) dummyModel).decisionThreshold =
      some (7 / 10) ∧
    (model_fn noEnv (.error (.fileNotFoundError "config.json"))
        dummyModel).decisionThreshold = some ((1 : ℚ) / 2) :=
  ⟨(model_fn_attaches_threshold noEnv (.ok cfgDocOk) dummyModel).2.1
      (7 / 10) rfl,
   (model_fn_attaches_threshold noEnv (.error (.fileNotFoundError "config.json"))
      dummyModel).2.2 (.fileNotFoundError "config.json") rfl⟩

/-- C2: in sagemaker (the spec's managed-platform) mode, with the two
environment-variable names read from the document's sagemaker section,
`resolve_paths` raises `EnvironmentError` when either named variable is
unset or empty, and otherwise returns exactly the pair of their runtime
values — data path first, output directory second — never a fallback. -/
theorem resolve_paths_sagemaker_env (env : Env) (cfg : Dict)
    (sm : List (String × Json)) (tc md : String)
    (hmode : objGet cfg "mode" = some (Json.str "sagemaker"))
    (hsm : objGet cfg "sagemaker" = some (Json.obj sm))
    (htc : objGet sm "train_channel" = some (Json.str tc))
    (hmd : objGet sm "model_dir" = some (Json.str md)) :
    ((falsyEnvVal (env tc) || falsyEnvVal (env md)) = true →
      resolve_paths env cfg =
        .error (.environmentError "Missing SageMaker env vars.")) ∧
    (∀ v1 v2, env tc = some v1 → env md = some v2 → v1 ≠ "" → v2 ≠ "" →
      resolve_paths env cfg = .ok (Json.str v1, Json.str v2)) := by
  constructor
  · intro h
    have h2 : falsyEnvVal (env tc) = true ∨ falsyEnvVal (env md) = true := by
      simpa using h
    rcases h2 with h1 | h1 <;>
      simp [resolve_paths, hmode, hsm, subscript, htc, hmd,
        exceptBindOk, exceptMapOk, exceptPure, h1]
  · intro v1 v2 h1 h2 hv1 hv2
    simp [resolve_paths, hmode, hsm, subscript, htc, hmd,
      exceptBindOk, exceptMapOk, exceptPure, falsyEnvVal, h1, h2, hv1, hv2]

/-- Witness for C2: with both platform variables set to non-empty paths
their values come back verbatim; with both unset the call raises. -/
theorem resolve_paths_sagemaker_env_witness :
    resolve_paths smEnvFull smCfg =
      .ok (Json.str "/opt/ml/input/data/train", Json.str "/opt/ml/model") ∧
    resolve_paths noEnv smCfg =
      .error (.environmentError "Missing SageMaker env vars.") :=
  ⟨(resolve_paths_sagemaker_env smEnvFull smCfg
      [("train_channel", Json.str "SM_CHANNEL_TRAIN"),
       ("model_dir", Json.str "SM_MODEL_DIR")]
      "SM_CHANNEL_TRAIN" "SM_MODEL_DIR" rfl rfl rfl rfl).2
      "/opt/ml/input/data/train" "/opt/ml/model" rfl rfl
      (by decide) (by decide),
   (resolve_paths_sagemaker_env noEnv smCfg
      [("train_channel", Json.str "SM_CHANNEL_TRAIN"),
       ("model_dir", Json.str "SM_MODEL_DIR")]
      "SM_CHANNEL_TRAIN" "SM_MODEL_DIR" rfl rfl rfl rfl).1 rfl⟩

/-- C10: in local mode, `resolve_paths` returns exactly the data path and
output directory stored in the document's local section, never raises
`EnvironmentError`, and is independent of the process environment: any two
environments give the identical result. -/
theorem resolve_paths_local_env_independent (cfg : Dict)
    (loc : List (String × Json)) (dp od : Json)
    (hmode : objGet cfg "mode" = some (Json.str "local"))
    (hloc : objGet cfg "local" = some (Json.obj loc))
    (hdp : objGet loc "data_path" = some dp)
    (hod : objGet loc "out_dir" = some od) :
    (∀ env, resolve_paths env cfg = .ok (dp, od)) ∧
    (∀ env env2, resolve_paths env cfg = resolve_paths env2 cfg) ∧
    (∀ env msg, resolve_paths env cfg ≠ .error (.environmentError msg)) := by
  have key : ∀ env, resolve_paths env cfg = .ok (dp, od) := by
    intro env
    simp [resolve_paths, hmode, hloc, subscript, hdp, hod,
      exceptBindOk, exceptMapOk, exceptPure]
  refine ⟨key, fun e1 e2 => by rw [key e1, key e2], ?_⟩
  intro env msg h
  rw [key env] at h
  cases h

/-- Witness for C10: the local section's literal paths come back, whether
the platform variables are set or not. -/
theorem resolve_paths_local_env_independent_witness :
    resolve_paths noEnv localCfgFull =
      .ok (Json.str "data/projects.csv", Json.str "models") ∧
    resolve_paths noEnv localCfgFull = resolve_paths smEnvFull localCfgFull :=
  ⟨(resolve_paths_local_env_independent localCfgFull
      [("data_path", Json.str "data/projects.csv"),
       ("out_dir", Json.str "models")]
      (Json.str "data/projects.csv") (Json.str "models")
      rfl rfl rfl rfl).1 noEnv,
   (resolve_paths_local_env_independent localCfgFull
      [("data_path", Json.str "data/projects.csv"),
       ("out_dir", Json.str "models")]
      (Json.str "data/projects.csv") (Json.str "models")
      rfl rfl rfl rfl).2.1 noEnv smEnvFull⟩

/-- C3 counterexample: `MODE` set to the empty string is a set environment
variable, yet `load_config` does not replace the document's mode with its
lower-cased (still empty, hence invalid) value and does not raise: the
Python truthiness test `if env_mode:` skips the override, and the document
passes validation on its own `local` mode. -/
theorem load_config_empty_mode_counterexample :
    (envEmptyMode "MODE").isSome = true ∧
    modeValid (objSet docLocalMode "mode" (Json.str (pyLower ""))) = false ∧
    load_config envEmptyMode (.ok docLocalMode) = .ok docLocalMode :=
  ⟨rfl, rfl, rfl⟩

/-- C3 (amended): `load_config` replaces the document's mode with the
lower-cased `MODE` value when that variable is set to a non-empty string
(an unset or empty `MODE` leaves the document untouched), then succeeds
exactly when the resulting mode is one of the two literals `local` and
`sagemaker` (the spec's `managed-platform`), returning the resulting
document; every failure is the `ValueError` the spec calls `ConfigError`. -/
theorem load_config_mode_override (env : Env) (doc : Dict) :
    (∀ m, env "MODE" = some m → m ≠ "" →
      (load_config env (.ok doc) =
          .ok (objSet doc "mode" (Json.str (pyLower m))) ↔
        (pyLower m = "local" ∨ pyLower m = "sagemaker")) ∧
      (¬(pyLower m = "local" ∨ pyLower m = "sagemaker") →
        load_config env (.ok doc) =
          .error (.valueError "config mode must be local or sagemaker."))) ∧
    ((env "MODE" = none ∨ env "MODE" = some "") →
      (load_config env (.ok doc) = .ok doc ↔
        (objGet doc "mode" = some (Json.str "local") ∨
         objGet doc "mode" = some (Json.str "sagemaker"))) ∧
      (¬(objGet doc "mode" = some (Json.str "local") ∨
         objGet doc "mode" = some (Json.str "sagemaker")) →
        load_config env (.ok doc) =
          .error (.valueError "config mode must be local or sagemaker."))) ∧
    (∀ e, load_config env (.ok doc) = .error e →
      e = .valueError "config mode must be local or sagemaker.") := by
  refine ⟨?_, ?_, ?_⟩
  · intro m hm hne
    have hL : load_config env (.ok doc) =
        (if modeValid (objSet doc "mode" (Json.str (pyLower m))) then
          .ok (objSet doc "mode" (Json.str (pyLower m)))
        else .error (.valueError "config mode must be local or sagemaker.")) := by
      simp [load_config, hm, hne, exceptBindOk]
    have hvalid : modeValid (objSet doc "mode" (Json.str (pyLower m))) = true ↔
        (pyLower m = "local" ∨ pyLower m = "sagemaker") := by
      rw [modeValid_iff, objGet_objSet_self]
      simp
    constructor
    · by_cases hv : modeValid (objSet doc "mode" (Json.str (pyLower m)))
      · rw [hL, if_pos hv]
        simp [hvalid.mp hv]
      · rw [hL, if_neg hv]
        constructor
        · intro h
          cases h
        · intro h
          exact absurd (hvalid.mpr h) hv
    · intro hinv
      have hv : ¬ modeValid (objSet doc "mode" (Json.str (pyLower m))) = true :=
        fun hv => hinv (hvalid.mp hv)
      rw [hL, if_neg hv]
  · intro hm
    have hL : load_config env (.ok doc) =
        (if modeValid doc then .ok doc
        else .error (.valueError "config mode must be local or sagemaker.")) := by
      rcases hm with hm | hm <;> simp [load_config, hm, exceptBindOk]
    constructor
    · by_cases hv : modeValid doc
      · rw [hL, if_pos hv]
        simp [(modeValid_iff doc).mp hv]
      · rw [hL, if_neg hv]
        constructor
        · intro h
          cases h
        · intro h
          exact absurd ((modeValid_iff doc).mpr h) hv
    · intro hinv
      have hv : ¬ modeValid doc = true := fun hv => hinv ((modeValid_iff doc).mp hv)
      rw [hL, if_neg hv]
  · intro e he
    unfold load_config at he
    rw [exceptBindOk] at he
    revert he
    cases env "MODE" with
    | none =>
        by_cases hv : modeValid doc <;> intro he <;> simp [hv] at he
        · exact he.symm
    | some m =>
        by_cases hme : m = ""
        · subst hme
          by_cases hv : modeValid doc <;> intro he <;> simp [hv] at he
          · exact he.symm
        · by_cases hv : modeValid (objSet doc "mode" (Json.str (pyLower m))) <;>
            intro he <;> simp [hme, hv] at he
          · exact he.symm

/-- Witness for C3 (amended): a non-empty `MODE=SageMaker` override
rewrites a local document's mode to `sagemaker` while `MODE=Production`
raises; with no `MODE` set, a valid local document comes back unchanged and
an invalid document mode raises. -/
theorem load_config_mode_override_witness :
    load_config (fun k => if k = "MODE" then some "SageMaker" else none)
        (.ok docLocalMode) =
      .ok (objSet docLocalMode "mode" (Json.str (pyLower "SageMaker"))) ∧
    load_config (fun k => if k = "MODE" then some "Production" else none)
        (.ok docLocalMode) =
      .error (.valueError "config mode must be local or sagemaker.") ∧
    load_config noEnv (.ok docLocalMode) = .ok docLocalMode ∧
    load_config noEnv (.ok [("mode", Json.str "weird")]) =
      .error (.valueError "config mode must be local or sagemaker.") :=
  ⟨(((load_config_mode_override
      (fun k => if k = "MODE" then some "SageMaker" else none) docLocalMode).1
      "SageMaker" rfl (by decide)).1).mpr (Or.inr rfl),
   ((load_config_mode_override
      (fun k => if k = "MODE" then some "Production" else none) docLocalMode).1
      "Production" rfl (by decide)).2 (by decide),
   (((load_config_mode_override noEnv docLocalMode).2.1 (Or.inl rfl)).1).mpr
      (Or.inl rfl),
   ((load_config_mode_override noEnv [("mode", Json.str "weird")]).2.1
      (Or.inl rfl)).2 (by simp [objGet, lookupStr])⟩

theorem npConvertList_nums (qs : List ℚ) :
    npConvertList (qs.map Json.num) = .ok qs := by
  induction qs with
  | nil => rfl
  | cons q rest ih =>
    simp [npConvertList, npElemToFloat, ih, exceptBindOk, exceptPure]

/-- C6 counterexample: a well-formed JSON body that is not a JSON object —
the JSON array `[1, 2]` — is a malformed payload, yet `payload.get` on it
raises `AttributeError` rather than the `ValueError` that stands for the
spec's `UnsupportedRequestError`. -/
theorem input_fn_nonobject_payload :
    input_fn (Json.arr [Json.num 1, Json.num 2]) "application/json" =
      .error (.attributeError "no attribute get") ∧
    PyErr.attributeError "no attribute get" ≠
      PyErr.valueError "Unsupported content type or payload" :=
  ⟨rfl, by decide⟩

/-- C6 (amended): `input_fn` returns a single-row named frame for a JSON
object body whose `features` field is a mapping, a single-row numeric array
for a `features` list of numbers, and raises the `ValueError` standing for
`UnsupportedRequestError` for every other content type and for a `features`
field that is neither a mapping nor a list; however a JSON body that is not
an object fails with `AttributeError` instead.  `input_fn` never touches
the loaded model: it is a function of the request alone. -/
theorem input_fn_request_parsing (body : Json) (ct : String) :
    (ct ≠ "application/json" →
      input_fn body ct =
        .error (.valueError "Unsupported content type or payload")) ∧
    (∀ kvs f, body = Json.obj kvs →
      objGet kvs "features" = some (Json.obj f) →
      input_fn body "application/json" = .ok (.frame f)) ∧
    (∀ kvs qs, body = Json.obj kvs →
      objGet kvs "features" = some (Json.arr (qs.map Json.num)) →
      input_fn body "application/json" = .ok (.array qs)) ∧
    (∀ kvs, body = Json.obj kvs →
      (match (objGet kvs "features").getD Json.null with
       | Json.obj _ => False
       | Json.arr _ => False
       | _ => True) →
      input_fn body "application/json" =
        .error (.valueError "Unsupported content type or payload")) ∧
    ((match body with | Json.obj _ => False | _ => True) →
      input_fn body "application/json" =
        .error (.attributeError "no attribute get")) := by
  refine ⟨?_, ?_, ?_, ?_, ?_⟩
  · intro h
    simp [input_fn, h]
  · intro kvs f hb hf
    subst hb
    simp [input_fn, hf]
  · intro kvs qs hb hf
    subst hb
    simp [input_fn, hf, npConvertList_nums]
  · intro kvs hb hshape
    subst hb
    rcases hgd : (objGet kvs "features").getD Json.null with _ | b | q | s | elts | flds <;>
      rw [hgd] at hshape <;> first
        | exact hshape.elim
        | simp [input_fn, hgd]
  · intro hshape
    cases body <;> first
      | exact hshape.elim
      | simp [input_fn]

/-- Witness for C6 (amended): a mapping becomes a named frame, a numeric
list becomes a numeric row, and a bad content type or a scalar `features`
field is the `ValueError`. -/
theorem input_fn_request_parsing_witness :
    input_fn (Json.obj [("features", Json.obj [("project_type", Json.str "infra")])])
        "application/json" =
      .ok (.frame [("project_type", Json.str "infra")]) ∧
    input_fn (Json.obj [("features", Json.arr [Json.num 1, Json.num 2])])
        "application/json" = .ok (.array [1, 2]) ∧
    input_fn Json.null "text/plain" =
      .error (.valueError "Unsupported content type or payload") ∧
    input_fn (Json.obj [("features", Json.str "x")]) "application/json" =
      .error (.valueError "Unsupported content type or payload") :=
  ⟨(input_fn_request_parsing
      (Json.obj [("features", Json.obj [("project_type", Json.str "infra")])])
      "application/json").2.1 _ [("project_type", Json.str "infra")] rfl rfl,
   (input_fn_request_parsing
      (Json.obj [("features", Json.arr [Json.num 1, Json.num 2])])
      "application/json").2.2.1 _ [1, 2] rfl rfl,
   (input_fn_request_parsing Json.null "text/plain").1 (by decide),
   (input_fn_request_parsing (Json.obj [("features", Json.str "x")])
      "application/json").2.2.2.1 _ rfl trivial⟩

/-- C9: when the resolved data path is a directory, the loader selects the
lexicographically first `*.csv` file inside it — the selected path is a
matching candidate and is at or below every candidate in Python's string
order — and raises `FileNotFoundError` (the spec's `DataNotFoundError`)
when there is no candidate; a non-directory path is used directly, and
`load_csv` reads exactly the selected file. -/
theorem load_csv_selects_first_csv (fs : FS) (p : String) :
    (fs.isDir p = false → select_data_file fs p = .ok p) ∧
    (fs.isDir p = true →
      ((fs.entries p).filter matchesCsvGlob = [] →
        select_data_file fs p =
          .error (.fileNotFoundError ("No CSV files found in " ++ p))) ∧
      (∀ c, select_data_file fs p = .ok c →
        c ∈ ((fs.entries p).filter matchesCsvGlob).map (joinPath p) ∧
        ∀ d ∈ ((fs.entries p).filter matchesCsvGlob).map (joinPath p),
          StrLe c d)) ∧
    (∀ e, select_data_file fs p = .error e → load_csv fs p = .error e) ∧
    (∀ q, select_data_file fs p = .ok q →
      load_csv fs p = (fs.readCsv q >>= fun df =>
        (frameColumn df "is_late" >>= fun y =>
          .ok (frameDrop df "is_late", y)))) := by
  refine ⟨?_, ?_, ?_, ?_⟩
  · intro h
    simp [select_data_file, h]
  · intro hdir
    constructor
    · intro hempty
      simp [select_data_file, hdir, hempty]
    · intro c hc
      have hperm := List.perm_insertionSort StrLe
        (((fs.entries p).filter matchesCsvGlob).map (joinPath p))
      have hsorted := List.sorted_insertionSort StrLe
        (((fs.entries p).filter matchesCsvGlob).map (joinPath p))
      rcases hs : List.insertionSort StrLe
          (((fs.entries p).filter matchesCsvGlob).map (joinPath p)) with
        _ | ⟨c0, cs⟩
      · simp [select_data_file, hdir, hs] at hc
      · have hceq : c0 = c := by
          simpa [select_data_file, hdir, hs] using hc
        subst hceq
        rw [hs] at hperm hsorted
        constructor
        · exact hperm.mem_iff.mp (List.mem_cons_self _ _)
        · intro d hd
          rcases List.mem_cons.mp (hperm.mem_iff.mpr hd) with hdc | hdc
          · subst hdc
            exact strLe_refl _
          · exact List.rel_of_sorted_cons hsorted d hdc
  · intro e he
    simp [load_csv, he, exceptBindErr]
  · intro q hq
    simp [load_csv, hq, exceptBindOk, exceptPure]

/-- Witness for C9: a plain file path passes through; in the mounted
channel directory of `demoFS` the selected candidate `a.csv` is a matching
file at or below both matching candidates. -/
theorem load_csv_selects_first_csv_witness :
    select_data_file trainFS "data/projects.csv" = .ok "data/projects.csv" ∧
    ("/data/train/a.csv" ∈
        ((demoFS.entries "/data/train").filter matchesCsvGlob).map
          (joinPath "/data/train") ∧
      ∀ d ∈ ((demoFS.entries "/data/train").filter matchesCsvGlob).map
          (joinPath "/data/train"), StrLe "/data/train/a.csv" d) :=
  ⟨(load_csv_selects_first_csv trainFS "data/projects.csv").1 rfl,
   ((load_csv_selects_first_csv demoFS "/data/train").2.1 rfl).2
      "/data/train/a.csv" rfl⟩

/-- C7: whatever artifact and metrics report one completed run writes are
consistent: the persisted classifier is the gradient-boosted ensemble
exactly when its held-out F1 is greater than or equal to the linear
baseline's (so an exact tie goes to the ensemble), the report's `best`
field names exactly the persisted classifier, and both land in the same
output directory. -/
theorem train_selects_higher_f1 (env : Env) (docResult : Except PyErr Dict)
    (fs : FS) (trainModels : Frame → List Json → Except PyErr (ℚ × ℚ))
    (od od2 : String) (c : Classifier) (lr xgb : ℚ) (name : String)
    (ha : FileWrite.artifact od c ∈ (train_main env docResult fs trainModels).2)
    (hm : FileWrite.metrics od2 lr xgb name ∈
      (train_main env docResult fs trainModels).2) :
    (c = Classifier.xgboost ↔ xgb ≥ lr) ∧
    (c = Classifier.xgboost ↔ name = "xgboost") ∧
    (c = Classifier.logreg ↔ name = "logreg") ∧
    (lr = xgb → c = Classifier.xgboost) ∧
    od2 = od := by
  unfold train_main at ha hm
  rcases hsteps : train_steps env docResult fs trainModels with e0 | ⟨od0, lr0, xgb0⟩
  · rw [hsteps] at ha
    simp at ha
  · rw [hsteps] at ha hm
    simp [persistWrites] at ha hm
    obtain ⟨hod, hc⟩ := ha
    obtain ⟨hod2, hlr, hxgb, hname⟩ := hm
    simp only [hod, hod2, hlr, hxgb, hc, hname, ge_iff_le]
    by_cases hge : lr0 ≤ xgb0
    · simp [hge]
    · simp only [if_neg hge]
      refine ⟨by simp [hge], by simp, by simp, ?_, trivial⟩
      intro heq
      exact absurd (le_of_eq heq) hge

/-- Witness for C7: on a run where the ensemble scores 0.75 against the
baseline's 0.5, the persisted artifact and the report's best field both
name the ensemble. -/
theorem train_selects_higher_f1_witness :
    (Classifier.xgboost = Classifier.xgboost ↔ (3 : ℚ) / 4 ≥ 1 / 2) ∧
    (Classifier.xgboost = Classifier.xgboost ↔ "xgboost" = "xgboost") ∧
    (Classifier.xgboost = Classifier.logreg ↔ "xgboost" = "logreg") ∧
    ((1 : ℚ) / 2 = 3 / 4 → Classifier.xgboost = Classifier.xgboost) ∧
    "models" = "models" := by
  have hsteps : train_steps noEnv (.ok localCfgFull) trainFS okTrain =
      .ok ("models", 1 / 2, 3 / 4) := rfl
  have hge : ((2 : ℚ)⁻¹ ≤ 3 / 4) := by norm_num
  have hw : (train_main noEnv (.ok localCfgFull) trainFS okTrain).2 =
      [FileWrite.artifact "models" Classifier.xgboost,
       FileWrite.metrics "models" (1 / 2) (3 / 4) "xgboost"] := by
    simp [train_main, hsteps, persistWrites, ge_iff_le, hge]
  exact train_selects_higher_f1 noEnv (.ok localCfgFull) trainFS okTrain
    "models" "models" Classifier.xgboost (1 / 2) (3 / 4) "xgboost"
    (by rw [hw]; exact List.mem_cons_self _ _)
    (by rw [hw]; exact List.mem_cons_of_mem _ (List.mem_cons_self _ _))

/-- C8: a training run that fails in any step — unreadable or invalid
configuration, missing platform environment variables, missing data file,
missing label column, or a failure while fitting — writes nothing at all;
and anything at all was written only if every stage through training and
scoring of both candidates had succeeded. -/
theorem train_failures_write_nothing (env : Env) (docResult : Except PyErr Dict)
    (fs : FS) (trainModels : Frame → List Json → Except PyErr (ℚ × ℚ)) :
    (∀ e, (train_main env docResult fs trainModels).1 = .error e →
      (train_main env docResult fs trainModels).2 = []) ∧
    ((train_main env docResult fs trainModels).2 ≠ [] →
      ∃ cfg dpJ odJ dp X y lr xgb,
        load_config env docResult = .ok cfg ∧
        resolve_paths env cfg = .ok (dpJ, odJ) ∧
        asPathStr dpJ = .ok dp ∧
        load_csv fs dp = .ok (X, y) ∧
        trainModels X y = .ok (lr, xgb)) := by
  rcases hsteps : train_steps env docResult fs trainModels with e0 | ⟨od0, lr0, xgb0⟩
  · constructor
    · intro e he
      simp [train_main, hsteps]
    · intro hne
      exact absurd (show (train_main env docResult fs trainModels).2 = [] by
        simp [train_main, hsteps]) hne
  · constructor
    · intro e he
      simp [train_main, hsteps] at he
    · intro hne
      unfold train_steps at hsteps
      rcases h1 : load_config env docResult with e1 | cfg
      · rw [h1] at hsteps
        simp only [exceptBindErr] at hsteps
        cases hsteps
      · rw [h1] at hsteps
        simp only [exceptBindOk] at hsteps
        rcases h2 : resolve_paths env cfg with e2 | ⟨dpJ, odJ⟩
        · rw [h2] at hsteps
          simp only [exceptBindErr] at hsteps
          cases hsteps
        · rw [h2] at hsteps
          simp only [exceptBindOk] at hsteps
          rcases h3 : asPathStr dpJ with e3 | dp
          · rw [h3] at hsteps
            simp only [exceptBindErr] at hsteps
            cases hsteps
          · rw [h3] at hsteps
            simp only [exceptBindOk] at hsteps
            rcases h4 : load_csv fs dp with e4 | ⟨X, y⟩
            · rw [h4] at hsteps
              simp only [exceptBindErr] at hsteps
              cases hsteps
            · rw [h4] at hsteps
              simp only [exceptBindOk] at hsteps
              rcases h5 : trainModels X y with e5 | ⟨lr, xgb⟩
              · rw [h5] at hsteps
                simp only [exceptBindErr] at hsteps
                cases hsteps
              · exact ⟨cfg, dpJ, odJ, dp, X, y, lr, xgb, rfl, h2, h3, h4, h5⟩

/-- Witness for C8: an unreadable configuration file aborts the run with
nothing written, while the complete local run has every stage succeed. -/
theorem train_failures_write_nothing_witness :
    (train_main noEnv (.error (.fileNotFoundError "missing")) trainFS okTrain).2 =
      [] ∧
    (∃ cfg dpJ odJ dp X y lr xgb,
      load_config noEnv (.ok localCfgFull) = .ok cfg ∧
      resolve_paths noEnv cfg = .ok (dpJ, odJ) ∧
      asPathStr dpJ = .ok dp ∧
      load_csv trainFS dp = .ok (X, y) ∧
      okTrain X y = .ok (lr, xgb)) :=
  ⟨(train_failures_write_nothing noEnv (.error (.fileNotFoundError "missing"))
      trainFS okTrain).1 (.fileNotFoundError "missing") rfl,
   (train_failures_write_nothing noEnv (.ok localCfgFull) trainFS okTrain).2
      (by
        have hsteps : train_steps noEnv (.ok localCfgFull) trainFS okTrain =
            .ok ("models", 1 / 2, 3 / 4) := rfl
        simp [train_main, hsteps, persistWrites])⟩

end PMRisk
